import Mathlib

/-!
# Verification of the medical gateway handlers (`server/index.js`)

The file embeds the three request handlers of `server/index.js`
(`POST /api/translate`, `POST /api/transcribe`, `POST /api/summarize`) as
pure functions over an explicit model of the JavaScript values they read,
of the external collaborators they call and of the file storage they
touch, and proves the properties of the specification about them.

Modelling conventions.

* JavaScript strings are Lean strings (sequences of Unicode code points).
* A JavaScript number is never computed with by the handlers: it is only
  tested for truthiness and converted to text.  A number is therefore
  represented by these two observations.
* A thrown value is an `Error` object with a name and a message.
* The upstream provider, `JSON.parse` and the file contents are parameters.
-/

namespace NaoMedical

/-! ## JavaScript values -/

/-- A value that can reach the handlers through `req.body` or come out of
`JSON.parse`.  `num falsy text` is a number whose `ToBoolean` is `!falsy`
and whose `ToString` is `text`. -/
inductive JSVal where
  | undefined : JSVal
  | null : JSVal
  | bool (b : Bool) : JSVal
  | num (falsy : Bool) (text : String) : JSVal
  | str (s : String) : JSVal
  | arr (items : List JSVal) : JSVal
  | obj (fields : List (String × JSVal)) : JSVal

/-- A thrown `Error` object: the handlers read only `message`. -/
structure JSError where
  name : String
  message : String
deriving DecidableEq, Repr

/-- The `TypeError` with the given message. -/
def typeError (message : String) : JSError :=
  { name := "TypeError", message := message }

/-- Test `v === undefined || v === null`. -/
def JSVal.isNullish : JSVal → Bool
  | .undefined => true
  | .null => true
  | _ => false

/-- Test `Array.isArray(v)`. -/
def JSVal.isArray : JSVal → Bool
  | .arr _ => true
  | _ => false

/-- The abstract operation `ToBoolean`: `!v` is `!(truthy v)`. -/
def JSVal.truthy : JSVal → Bool
  | .undefined => false
  | .null => false
  | .bool b => b
  | .num falsy _ => !falsy
  | .str s => s != ""
  | .arr _ => true
  | .obj _ => true

/-- Own-property lookup in the field list of an object (which holds each
key once). -/
def lookupField (key : String) : List (String × JSVal) → Option JSVal
  | [] => none
  | (k, v) :: rest => if k = key then some v else lookupField key rest

/-- The value of `v.key` on a value other than `undefined` and `null`, for
a key that no built-in prototype defines (`text`, `targetLanguage`,
`sourceLanguage`, `messages`, `senderRole`, `originalText`): the own field
of an object, and `undefined` on any other value. -/
def JSVal.get (v : JSVal) (key : String) : JSVal :=
  match v with
  | .obj fields => (lookupField key fields).getD .undefined
  | _ => .undefined

/-- Text of a value inside an engine error message. -/
def JSVal.nullishName : JSVal → String
  | .null => "null"
  | _ => "undefined"

/-- Property read `v.key`: a `TypeError` on `undefined` and `null`. -/
def getProp (v : JSVal) (key : String) : Except JSError JSVal :=
  if v.isNullish then
    .error (typeError ("Cannot read properties of " ++ v.nullishName ++ " (reading \x27" ++ key ++ "\x27)"))
  else .ok (v.get key)

/-- The error of destructuring `req.body` (first key `key`) when
`req.body` is `undefined` or `null`. -/
def destructureError (key : String) (v : JSVal) : JSError :=
  typeError ("Cannot destructure property \x27" ++ key ++ "\x27 of \x27req.body\x27 as it is " ++ v.nullishName ++ ".")

/-- Separator-joined concatenation, as `Array.prototype.join` does it. -/
def joinWith (sep : String) : List String → String
  | [] => ""
  | [s] => s
  | s :: t :: rest => s ++ sep ++ joinWith sep (t :: rest)

mutual
/-- The abstract operation `ToString` on a value, `none` when it throws
(`TypeError: Cannot convert object to primitive value`, for an object
whose own `toString` field hides `Object.prototype.toString`). -/
def toStr? : JSVal → Option String
  | .undefined => some "undefined"
  | .null => some "null"
  | .bool b => some (if b then "true" else "false")
  | .num _ text => some text
  | .str s => some s
  | .arr items => (itemsToStr? items).map (joinWith ",")
  | .obj fields => if (fieldKeys fields).contains "toString" then none else some "[object Object]"
/-- The element texts that `Array.prototype.join` concatenates:
`undefined` and `null` elements give the empty string. -/
def itemsToStr? : List JSVal → Option (List String)
  | [] => some []
  | v :: rest =>
      match (if v.isNullish then some "" else toStr? v), itemsToStr? rest with
      | some s, some ss => some (s :: ss)
      | _, _ => none
/-- The own keys of an object. -/
def fieldKeys : List (String × JSVal) → List String
  | [] => []
  | (k, _) :: rest => k :: fieldKeys rest
end

/-- A template-literal substitution or other `ToString` conversion. -/
def toStr (v : JSVal) : Except JSError String :=
  match toStr? v with
  | some s => .ok s
  | none => .error (typeError "Cannot convert object to primitive value")

/-! ## `String.prototype.trim` -/

/-- The code points that `trim` strips: ECMAScript `WhiteSpace` and
`LineTerminator`. -/
def isJSWhiteSpace (c : Char) : Bool :=
  let n := c.toNat
  n = 0x09 || n = 0x0A || n = 0x0B || n = 0x0C || n = 0x0D || n = 0x20 ||
  n = 0xA0 || n = 0x1680 || (0x2000 ≤ n && n ≤ 0x200A) || n = 0x2028 ||
  n = 0x2029 || n = 0x202F || n = 0x205F || n = 0x3000 || n = 0xFEFF

/-- The method `String.prototype.trim`. -/
def jsTrim (s : String) : String :=
  String.mk ((s.data.dropWhile isJSWhiteSpace).rdropWhile isJSWhiteSpace)

/-! ## External collaborators -/

/-- One turn of a chat-completion request. -/
structure ChatMessage where
  role : String
  content : JSVal

/-- The argument of `openai.chat.completions.create`. -/
structure ChatRequest where
  model : String
  messages : List ChatMessage
  responseFormat : Option String
  temperature : JSVal

/-- One element of `completion.choices`: its `message.content`, `none`
for `null`. -/
structure ChatChoice where
  content : Option String

/-- The value `openai.chat.completions.create` resolves to. -/
structure ChatCompletion where
  choices : List ChatChoice

/-- The contents of a stored file, as bytes. -/
abbrev FileData := List Nat

/-- The files of the storage layer: the contents at each path that exists. -/
abbrev Storage := String → Option FileData

/-- The value of `fs.createReadStream(path)`: the stream is opened lazily,
so a missing file is not an error here; the reader finds no contents. -/
structure ReadStream where
  path : String
  contents : Option FileData

/-- The argument of `openai.audio.transcriptions.create`. -/
structure TranscriptionRequest where
  file : ReadStream
  model : String

/-- The value `openai.audio.transcriptions.create` resolves to. -/
structure Transcription where
  text : String

/-- The file object that the upload middleware puts in `req.file`; the
handler reads only its `path`. -/
structure MulterFile where
  path : String

/-- The collaborators outside the repository: the two upstream provider
calls (each returns or throws) and `JSON.parse`. -/
structure Env where
  chat : ChatRequest → Except JSError ChatCompletion
  transcribe : TranscriptionRequest → Except JSError Transcription
  jsonParse : String → Except JSError JSVal

/-- A call made to the upstream provider. -/
inductive UpstreamCall where
  | chat (request : ChatRequest) : UpstreamCall
  | transcription (request : TranscriptionRequest) : UpstreamCall

/-- An HTTP reply: `res.status(status).json(body)`. -/
structure Response where
  status : Nat
  body : JSVal

/-- The run of a `try` block: the upstream calls it made and either the
response it sent or the exception it threw. -/
structure Attempt where
  calls : List UpstreamCall
  result : Except JSError Response

/-- The run of a whole handler: the upstream calls made, the entries
written with `console.error`, and either the response sent or the
exception that left the handler uncaught. -/
structure Outcome where
  calls : List UpstreamCall
  log : List (String × JSError)
  result : Except JSError Response

/-- The `catch (error)` blocks of the three handlers, which differ in the
two texts only: log the error under `label`, answer 500 with `failure`
and the message of the error. -/
def catchBlock (label failure : String) (a : Attempt) : Outcome :=
  match a.result with
  | .ok response => { calls := a.calls, log := [], result := .ok response }
  | .error error =>
      { calls := a.calls
        log := [(label, error)]
        result := .ok
          { status := 500
            body := .obj [("error", .str failure), ("details", .str error.message)] } }

/-- The function `fs.createReadStream`. -/
def createReadStream (fs : Storage) (path : String) : ReadStream :=
  { path := path, contents := fs path }

/-- The function `fs.unlinkSync`: removes the file at `path`, throws
`ENOENT` when there is none. -/
def unlinkSync (fs : Storage) (path : String) : Except JSError Storage :=
  match fs path with
  | none =>
      .error
        { name := "Error"
          message := "ENOENT: no such file or directory, unlink \x27" ++ path ++ "\x27" }
  | some _ => .ok (fun q => if q = path then none else fs q)

/-- The expression `completion.choices[0].message.content`. -/
def firstContent (completion : ChatCompletion) : Except JSError (Option String) :=
  match completion.choices with
  | [] => .error (typeError "Cannot read properties of undefined (reading \x27message\x27)")
  | choice :: _ => .ok choice.content

/-! ## Translation endpoint -/

/-- The template literal `systemPrompt` of the translate handler. -/
def translate.systemPrompt (sourceLanguage targetLanguage : JSVal) : Except JSError String :=
  match toStr (if sourceLanguage.truthy then sourceLanguage else .str "auto") with
  | .error e => .error e
  | .ok source =>
      match toStr targetLanguage with
      | .error e => .error e
      | .ok target =>
          .ok ("You are a medical translator. Translate the following text from " ++ source ++
            " to " ++ target ++
            " accurately maintaining medical terminology. Translate only the text, return nothing else.")

/-- The chat-completion request of the translate handler. -/
def translateRequest (systemPrompt : String) (text : JSVal) : ChatRequest :=
  { model := "gpt-3.5-turbo"
    messages := [{ role := "system", content := .str systemPrompt }, { role := "user", content := text }]
    responseFormat := none
    temperature := .num false "0.3" }

/-- The expression `completion.choices[0].message.content.trim()`. -/
def translatedContent (completion : ChatCompletion) : Except JSError String :=
  match firstContent completion with
  | .error e => .error e
  | .ok none => .error (typeError "Cannot read properties of null (reading \x27trim\x27)")
  | .ok (some content) => .ok (jsTrim content)

/-- The `try` block of `POST /api/translate`, on the parsed body. -/
def translateAttempt (env : Env) (body : JSVal) : Attempt :=
  if body.isNullish then { calls := [], result := .error (destructureError "text" body) }
  else
    let text := body.get "text"
    let targetLanguage := body.get "targetLanguage"
    let sourceLanguage := body.get "sourceLanguage"
    if !text.truthy || !targetLanguage.truthy then
      { calls := []
        result := .ok { status := 400, body := .obj [("error", .str "Missing text or targetLanguage")] } }
    else
      match translate.systemPrompt sourceLanguage targetLanguage with
      | .error e => { calls := [], result := .error e }
      | .ok systemPrompt =>
          let request := translateRequest systemPrompt text
          match env.chat request with
          | .error e => { calls := [.chat request], result := .error e }
          | .ok completion =>
              match translatedContent completion with
              | .error e => { calls := [.chat request], result := .error e }
              | .ok translatedText =>
                  { calls := [.chat request]
                    result := .ok
                      { status := 200
                        body := .obj [("translatedText", .str translatedText), ("originalText", text)] } }

/-- The handler of `POST /api/translate`. -/
def translate (env : Env) (body : JSVal) : Outcome :=
  catchBlock "Translation Error:" "Translation failed" (translateAttempt env body)

/-! ## Transcription endpoint -/

/-- The `try` block of `POST /api/transcribe`, on `req.file` and the
storage, with the storage it leaves. -/
def transcribeAttempt (env : Env) (fs : Storage) (file : Option MulterFile) : Attempt × Storage :=
  match file with
  | none =>
      ({ calls := []
         result := .ok { status := 400, body := .obj [("error", .str "No audio file provided")] } }, fs)
  | some f =>
      let request : TranscriptionRequest := { file := createReadStream fs f.path, model := "whisper-1" }
      match env.transcribe request with
      | .error e => ({ calls := [.transcription request], result := .error e }, fs)
      | .ok transcription =>
          match unlinkSync fs f.path with
          | .error e => ({ calls := [.transcription request], result := .error e }, fs)
          | .ok fs1 =>
              ({ calls := [.transcription request]
                 result := .ok { status := 200, body := .obj [("text", .str transcription.text)] } }, fs1)

/-- The handler of `POST /api/transcribe`. -/
def transcribe (env : Env) (fs : Storage) (file : Option MulterFile) : Outcome × Storage :=
  let run := transcribeAttempt env fs file
  (catchBlock "Transcription Error:" "Transcription failed" run.1, run.2)

/-! ## Summarization endpoint -/

/-- The callback of `messages.map`: the template literal with
`m.senderRole` and `m.originalText`. -/
def messageLine (m : JSVal) : Except JSError String :=
  match getProp m "senderRole" with
  | .error e => .error e
  | .ok senderRole =>
      match toStr senderRole with
      | .error e => .error e
      | .ok role =>
          match getProp m "originalText" with
          | .error e => .error e
          | .ok originalText =>
              match toStr originalText with
              | .error e => .error e
              | .ok text => .ok (role ++ ": " ++ text)

/-- The call `messages.map(...)` on the elements of an array, in order; it
stops at the first element whose callback throws. -/
def mapLines : List JSVal → Except JSError (List String)
  | [] => .ok []
  | m :: rest =>
      match messageLine m with
      | .error e => .error e
      | .ok line =>
          match mapLines rest with
          | .error e => .error e
          | .ok lines => .ok (line :: lines)

/-- The constant `conversationText` of the summarize handler. -/
def conversationText (messages : JSVal) : Except JSError String :=
  match messages with
  | .arr items =>
      match mapLines items with
      | .error e => .error e
      | .ok lines => .ok (joinWith "\n" lines)
  | _ => .error (typeError "messages.map is not a function")

/-- The template literal `systemPrompt` of the summarize handler. -/
def summarize.systemPrompt : String :=
  "You are a medical data assistant. Analyze the following doctor-patient conversation and extract key medical information. \n    Format your response as a JSON object with these fields:\n    - summary: A brief narrative summary of the consultation.\n    - symptoms: Array of strings (symptoms mentioned).\n    - diagnoses: Array of strings (diagnoses discussed).\n    - medications: Array of strings (medications prescribed with dosages).\n    - followups: Array of strings (instructions or next steps).\n    \n    Return ONLY valid JSON."

/-- The chat-completion request of the summarize handler. -/
def summarizeRequest (conversation : String) : ChatRequest :=
  { model := "gpt-3.5-turbo"
    messages :=
      [{ role := "system", content := .str summarize.systemPrompt }, { role := "user", content := .str conversation }]
    responseFormat := some "json_object"
    temperature := .num false "0.5" }

/-- The expression `JSON.parse(completion.choices[0].message.content)`;
`JSON.parse` converts its argument to a string first, so `null` content
is parsed as the text `null`. -/
def parsedContent (env : Env) (completion : ChatCompletion) : Except JSError JSVal :=
  match firstContent completion with
  | .error e => .error e
  | .ok content => env.jsonParse (content.getD "null")

/-- The `try` block of `POST /api/summarize`, on the parsed body. -/
def summarizeAttempt (env : Env) (body : JSVal) : Attempt :=
  if body.isNullish then { calls := [], result := .error (destructureError "messages" body) }
  else
    let messages := body.get "messages"
    if !messages.truthy || !messages.isArray then
      { calls := []
        result := .ok { status := 400, body := .obj [("error", .str "Invalid messages format")] } }
    else
      match conversationText messages with
      | .error e => { calls := [], result := .error e }
      | .ok conversation =>
          let request := summarizeRequest conversation
          match env.chat request with
          | .error e => { calls := [.chat request], result := .error e }
          | .ok completion =>
              match parsedContent env completion with
              | .error e => { calls := [.chat request], result := .error e }
              | .ok result => { calls := [.chat request], result := .ok { status := 200, body := result } }

/-- The handler of `POST /api/summarize`. -/
def summarize (env : Env) (body : JSVal) : Outcome :=
  catchBlock "Summarization Error:" "Summarization failed" (summarizeAttempt env body)

/-! ## The router -/

/-- A request to one of the three routes: the parsed JSON body, or the
uploaded file in `req.file` (`none` when the form has no `audio` part). -/
inductive Request where
  | translate (body : JSVal) : Request
  | transcribe (file : Option MulterFile) : Request
  | summarize (body : JSVal) : Request

/-- The three `app.post` routes: the outcome of the handler and the
storage it leaves.  Only the transcribe handler touches the storage. -/
def handle (env : Env) (fs : Storage) : Request → Outcome × Storage
  | .translate body => (translate env body, fs)
  | .transcribe file => transcribe env fs file
  | .summarize body => (summarize env body, fs)

/-- The `error` text of the 500 reply of each route. -/
def Request.failureText : Request → String
  | .translate _ => "Translation failed"
  | .transcribe _ => "Transcription failed"
  | .summarize _ => "Summarization failed"

/-- The error an upstream call throws, `none` when it returns. -/
def Env.thrown (env : Env) : UpstreamCall → Option JSError
  | .chat request =>
      match env.chat request with
      | .error e => some e
      | .ok _ => none
  | .transcription request =>
      match env.transcribe request with
      | .error e => some e
      | .ok _ => none

/-! ## Conversation messages of the data model -/

/-- A conversation turn of the data model: a speaker role and a text. -/
structure ConversationMessage where
  senderRole : String
  originalText : String
deriving DecidableEq, Repr

/-- The transcript entry of a turn in the words of the specification:
`role: text`. -/
def ConversationMessage.entry (m : ConversationMessage) : String :=
  m.senderRole ++ ": " ++ m.originalText

/-- The turn a value carries, when its `senderRole` and `originalText`
are both strings (whatever its other fields). -/
def JSVal.asMessage? (v : JSVal) : Option ConversationMessage :=
  match v.get "senderRole", v.get "originalText" with
  | .str role, .str text => some { senderRole := role, originalText := text }
  | _, _ => none

/-- The elements of `xs` at the positions `positions`, in that order:
a rearrangement of `xs` when `positions` is a permutation of its
indices. -/
def rearrange {α : Type} (positions : List Nat) (xs : List α) : List α :=
  positions.filterMap (fun i => xs[i]?)

/-! ## Example collaborators -/

/-- A reply text with the five fields of a summary. -/
def exampleSummaryText : String :=
  "\x7b\"summary\":\"Patient reports a fever.\",\"symptoms\":[\"fever\"],\"diagnoses\":[],\"medications\":[],\"followups\":[\"rest\"]\x7d"

/-- The value `JSON.parse` gives for `exampleSummaryText`. -/
def exampleSummary : JSVal :=
  .obj
    [("summary", .str "Patient reports a fever."), ("symptoms", .arr [.str "fever"]),
     ("diagnoses", .arr []), ("medications", .arr []), ("followups", .arr [.str "rest"])]

/-- The function `JSON.parse` on the two texts of the examples:
`exampleSummaryText` parses, and every other text used (`not json`) is
rejected with a `SyntaxError`.  It stands for `JSON.parse` on these texts
only. -/
def exampleParse (text : String) : Except JSError JSVal :=
  if text = exampleSummaryText then .ok exampleSummary
  else
    .error
      { name := "SyntaxError"
        message := "Unexpected token \x27o\x27, \"" ++ text ++ "\" is not valid JSON" }

/-- Collaborators whose provider answers every chat call with one choice
of content `reply` and every transcription call with `reply`. -/
def replyingEnv (reply : String) : Env :=
  { chat := fun _ => .ok { choices := [{ content := some reply }] }
    transcribe := fun _ => .ok { text := reply }
    jsonParse := exampleParse }

/-- Collaborators whose provider throws `error` on every call. -/
def failingEnv (error : JSError) : Env :=
  { chat := fun _ => .error error
    transcribe := fun _ => .error error
    jsonParse := exampleParse }

/-- A storage with one staged upload. -/
def exampleStorage : Storage :=
  fun path => if path = "uploads/3f2a" then some [82, 73, 70, 70] else none

/-- The error the examples let the provider throw. -/
def connectionError : JSError :=
  { name := "Error", message := "Connection error." }

/-! ## Auxiliary facts -/

/-- The result of `trim` does not start with a stripped code point. -/
theorem jsTrim_head_not_white (s : String) (ch : Char)
    (h : (jsTrim s).data.head? = some ch) : isJSWhiteSpace ch = false := by
  have hpre : (s.data.dropWhile isJSWhiteSpace).rdropWhile isJSWhiteSpace <+:
      s.data.dropWhile isJSWhiteSpace := List.rdropWhile_prefix _ _
  obtain ⟨tail, htail⟩ := hpre
  have hdrop := List.head?_dropWhile_not isJSWhiteSpace s.data
  simp only [jsTrim] at h
  cases hr : (s.data.dropWhile isJSWhiteSpace).rdropWhile isJSWhiteSpace with
  | nil => simp [hr] at h
  | cons a r =>
      rw [hr] at h htail
      rw [← htail] at hdrop
      simp only [List.head?_cons, Option.some.injEq] at h
      subst h
      simpa using hdrop

/-- The result of `trim` does not end with a stripped code point. -/
theorem jsTrim_last_not_white (s : String) (ch : Char)
    (h : (jsTrim s).data.getLast? = some ch) : isJSWhiteSpace ch = false := by
  simp only [jsTrim] at h
  by_cases hne : (s.data.dropWhile isJSWhiteSpace).rdropWhile isJSWhiteSpace = []
  · simp [hne] at h
  · have hlast := List.rdropWhile_last_not isJSWhiteSpace (s.data.dropWhile isJSWhiteSpace) hne
    rw [List.getLast?_eq_getLast _ hne] at h
    simp only [Option.some.injEq] at h
    subst h
    simpa using hlast

/-- The method `trim` only strips: its argument is the result with
stripped code points before it and after it. -/
theorem jsTrim_strips_only (s : String) :
    ∃ before after : List Char,
      s.data = before ++ (jsTrim s).data ++ after ∧
      (∀ ch ∈ before, isJSWhiteSpace ch = true) ∧
      (∀ ch ∈ after, isJSWhiteSpace ch = true) := by
  have hsplit : ∀ l : List Char,
      l = l.rdropWhile isJSWhiteSpace ++ l.rtakeWhile isJSWhiteSpace := by
    intro l
    have h := List.takeWhile_append_dropWhile isJSWhiteSpace l.reverse
    have h2 := congrArg List.reverse h
    simp only [List.reverse_append, List.reverse_reverse] at h2
    simpa [List.rdropWhile, List.rtakeWhile] using h2.symm
  refine ⟨s.data.takeWhile isJSWhiteSpace,
    (s.data.dropWhile isJSWhiteSpace).rtakeWhile isJSWhiteSpace, ?_, ?_, ?_⟩
  · have h1 := (List.takeWhile_append_dropWhile isJSWhiteSpace s.data).symm
    have h2 := hsplit (s.data.dropWhile isJSWhiteSpace)
    simp only [jsTrim, List.append_assoc]
    rw [← h2]
    exact h1
  · intro ch hch
    exact List.mem_takeWhile_imp hch
  · intro ch hch
    exact List.mem_rtakeWhile_imp hch

/-- The system prompt of the translate handler is built whenever the
target language is a string and the source language converts to text. -/
theorem translate_systemPrompt_ok (source : JSVal) (l : String)
    (hsource : (toStr? source).isSome = true) :
    ∃ prompt, translate.systemPrompt source (.str l) = .ok prompt := by
  obtain ⟨st, hst⟩ := Option.isSome_iff_exists.mp hsource
  by_cases htruthy : source.truthy = true
  · simp [translate.systemPrompt, htruthy, toStr, hst, toStr?]
  · simp [translate.systemPrompt, htruthy, toStr, toStr?]

/-- The join of the handler is the separator-joined text of the standard
library. -/
theorem joinWith_eq_intercalate (sep : String) (lines : List String) :
    joinWith sep lines = String.intercalate sep lines := by
  have hgo : ∀ (rest : List String) (acc first : String),
      String.intercalate.go (acc ++ first) sep rest = acc ++ joinWith sep (first :: rest) := by
    intro rest
    induction rest with
    | nil => intro acc first; simp [String.intercalate.go, joinWith]
    | cons next rest ih =>
        intro acc first
        have h := ih (acc ++ first ++ sep) next
        simp only [String.intercalate.go, joinWith]
        simpa [String.append_assoc] using h
  cases lines with
  | nil => rfl
  | cons first rest =>
      have h := hgo rest "" first
      simpa [String.intercalate] using h.symm

/-- A value that carries a turn gives the entry of that turn. -/
theorem messageLine_of_asMessage (v : JSVal) (m : ConversationMessage)
    (h : v.asMessage? = some m) : messageLine v = .ok m.entry := by
  cases v with
  | obj fields =>
      simp only [JSVal.asMessage?] at h
      split at h
      · rename_i role text hrole htext
        simp only [Option.some.injEq] at h
        subst h
        simp [messageLine, getProp, JSVal.isNullish, hrole, htext, toStr, toStr?,
          ConversationMessage.entry]
      · simp at h
  | _ => simp [JSVal.asMessage?, JSVal.get] at h

/-- On an array of turns `messages.map` gives the entries of the turns,
position by position. -/
theorem mapLines_of_asMessage (items : List JSVal) (msgs : List ConversationMessage)
    (h : items.map JSVal.asMessage? = msgs.map some) :
    mapLines items = .ok (msgs.map ConversationMessage.entry) := by
  induction items generalizing msgs with
  | nil =>
      cases msgs with
      | nil => rfl
      | cons m ms => simp at h
  | cons v rest ih =>
      cases msgs with
      | nil => simp at h
      | cons m ms =>
          simp only [List.map_cons, List.cons.injEq] at h
          simp [mapLines, messageLine_of_asMessage v m h.1, ih ms h.2]

/-- Rearranging an array of turns rearranges the turns it carries. -/
theorem rearrange_asMessage (positions : List Nat) (items : List JSVal)
    (msgs : List ConversationMessage)
    (h : items.map JSVal.asMessage? = msgs.map some) :
    (rearrange positions items).map JSVal.asMessage? = (rearrange positions msgs).map some := by
  have hpoint : ∀ i : Nat, (items[i]?).map JSVal.asMessage? = (msgs[i]?).map some := by
    intro i
    have := congrArg (fun l => l[i]?) h
    simpa [List.getElem?_map] using this
  induction positions with
  | nil => rfl
  | cons i rest ih =>
      have hi := hpoint i
      simp only [rearrange] at ih ⊢
      cases hv : items[i]? with
      | none =>
          cases hm : msgs[i]? with
          | none => simpa [List.filterMap_cons, hv, hm] using ih
          | some m => simp [hv, hm] at hi
      | some v =>
          cases hm : msgs[i]? with
          | none => simp [hv, hm] at hi
          | some m =>
              simp only [hv, hm, Option.map_some', Option.some.injEq] at hi
              simp [List.filterMap_cons, hv, hm, hi, ih]

/-- The upstream call of the summarize handler on an array of turns. -/
theorem summarize_calls_of_asMessage (env : Env) (body : JSVal) (items : List JSVal)
    (msgs : List ConversationMessage)
    (hbody : body.isNullish = false)
    (hmessages : body.get "messages" = .arr items)
    (hturns : items.map JSVal.asMessage? = msgs.map some) :
    (summarize env body).calls =
      [.chat (summarizeRequest (String.intercalate "\n" (msgs.map ConversationMessage.entry)))] := by
  have hlines := mapLines_of_asMessage items msgs hturns
  simp only [summarize, summarizeAttempt, hbody, hmessages, conversationText, hlines,
    joinWith_eq_intercalate, JSVal.truthy, JSVal.isArray]
  repeat' split
  all_goals simp_all [catchBlock]

/-- The response of the summarize handler once the transcript is built
and the upstream call has returned: the parsed content, or the 500 reply
with the message of the parse error. -/
theorem summarize_result_of_chat (env : Env) (body : JSVal) (items : List JSVal)
    (msgs : List ConversationMessage) (completion : ChatCompletion)
    (hbody : body.isNullish = false)
    (hmessages : body.get "messages" = .arr items)
    (hturns : items.map JSVal.asMessage? = msgs.map some)
    (hupstream : ∀ request, UpstreamCall.chat request ∈ (summarize env body).calls →
      env.chat request = .ok completion) :
    summarize env body =
      catchBlock "Summarization Error:" "Summarization failed"
        { calls := [.chat (summarizeRequest
            (String.intercalate "\n" (msgs.map ConversationMessage.entry)))]
          result :=
            match parsedContent env completion with
            | .error e => .error e
            | .ok result => .ok { status := 200, body := result } } := by
  have hcalls := summarize_calls_of_asMessage env body items msgs hbody hmessages hturns
  have hchat := hupstream _ (by rw [hcalls]; exact List.Mem.head _)
  have hlines := mapLines_of_asMessage items msgs hturns
  simp only [summarize, summarizeAttempt, hbody, hmessages, conversationText, hlines,
    joinWith_eq_intercalate, JSVal.truthy, JSVal.isArray, hchat]
  cases parsedContent env completion <;> simp

/-- A text that starts with a non-empty text is not empty. -/
theorem append_ne_empty (a b : String) (ha : a ≠ "") : a ++ b ≠ "" := by
  intro hab
  apply ha
  have hdata := congrArg String.data hab
  rw [String.data_append] at hdata
  exact String.ext (List.append_eq_nil.mp hdata).1

/-- The `TypeError` of a property read has a message. -/
theorem getProp_error_message (v : JSVal) (key : String) (e : JSError)
    (h : getProp v key = .error e) : e.message ≠ "" := by
  simp only [getProp] at h
  split at h
  · simp only [Except.error.injEq] at h
    subst h
    simp only [typeError, String.append_assoc]
    exact append_ne_empty _ _ (by decide)
  · simp at h

/-- The `TypeError` of a conversion to text has a message. -/
theorem toStr_error_message (v : JSVal) (e : JSError)
    (h : toStr v = .error e) : e.message ≠ "" := by
  simp only [toStr] at h
  split at h
  · simp at h
  · simp only [Except.error.injEq] at h
    subst h
    decide

/-- An exception thrown by the callback of `messages.map` has a message. -/
theorem messageLine_error_message (v : JSVal) (e : JSError)
    (h : messageLine v = .error e) : e.message ≠ "" := by
  simp only [messageLine] at h
  cases h1 : getProp v "senderRole" with
  | error e1 =>
      simp only [h1, Except.error.injEq] at h
      exact h ▸ getProp_error_message v _ e1 h1
  | ok role =>
      simp only [h1] at h
      cases h2 : toStr role with
      | error e2 =>
          simp only [h2, Except.error.injEq] at h
          exact h ▸ toStr_error_message role e2 h2
      | ok roleText =>
          simp only [h2] at h
          cases h3 : getProp v "originalText" with
          | error e3 =>
              simp only [h3, Except.error.injEq] at h
              exact h ▸ getProp_error_message v _ e3 h3
          | ok text =>
              simp only [h3] at h
              cases h4 : toStr text with
              | error e4 =>
                  simp only [h4, Except.error.injEq] at h
                  exact h ▸ toStr_error_message text e4 h4
              | ok line => simp [h4] at h

/-- When an element of the array is `undefined` or `null`, `messages.map`
throws, with a message. -/
theorem mapLines_error_of_nullish (items : List JSVal)
    (h : ∃ m ∈ items, m.isNullish = true) :
    ∃ e, mapLines items = .error e ∧ e.message ≠ "" := by
  induction items with
  | nil => simp at h
  | cons v rest ih =>
      cases hline : messageLine v with
      | error e => exact ⟨e, by simp [mapLines, hline], messageLine_error_message v e hline⟩
      | ok line =>
          obtain ⟨m, hm, hnull⟩ := h
          rcases List.mem_cons.mp hm with hv | hrest
          · subst hv
            simp [messageLine, getProp, hnull] at hline
          · obtain ⟨e, he, hmsg⟩ := ih ⟨m, hrest, hnull⟩
            exact ⟨e, by simp [mapLines, hline, he], hmsg⟩

/-! ## Validation (C1, C2, C3) -/

/-- C1, refuted as stated: a translate request without a parsed body
(`req.body` is `undefined`) has no `text`, and is answered with status
500 `Translation failed`, not with status 400. -/
theorem translate_missing_body_gives_500 :
    (JSVal.undefined.get "text").isNullish = true ∧
      (translate (replyingEnv "Hola") .undefined).result =
        .ok { status := 500
              body := .obj [("error", .str "Translation failed"),
                ("details",
                  .str "Cannot destructure property \x27text\x27 of \x27req.body\x27 as it is undefined.")] } ∧
      (translate (replyingEnv "Hola") .undefined).result ≠
        .ok { status := 400, body := .obj [("error", .str "Missing text or targetLanguage")] } := by
  have hok : (translate (replyingEnv "Hola") .undefined).result =
      .ok { status := 500
            body := .obj [("error", .str "Translation failed"),
              ("details",
                .str "Cannot destructure property \x27text\x27 of \x27req.body\x27 as it is undefined.")] } := rfl
  refine ⟨rfl, hok, ?_⟩
  intro h
  rw [hok] at h
  simp at h

/-- C1, amended: a translate request whose `text` or `targetLanguage` is
missing (`undefined` or `null`), whatever its other fields, makes no call
to the upstream provider; and when the request has a parsed body
(`req.body` is neither `undefined` nor `null`) it is answered with status
400 and an `error` message. -/
theorem translate_missing_field_rejected (env : Env) (body : JSVal)
    (hmissing : (body.get "text").isNullish = true ∨
      (body.get "targetLanguage").isNullish = true) :
    (body.isNullish = false →
        (translate env body).result =
          .ok { status := 400, body := .obj [("error", .str "Missing text or targetLanguage")] }) ∧
      (translate env body).calls = [] := by
  have hfalsy : ∀ v : JSVal, v.isNullish = true → v.truthy = false := by
    intro v hv
    cases v <;> simp_all [JSVal.isNullish, JSVal.truthy]
  have hguard : (!(body.get "text").truthy || !(body.get "targetLanguage").truthy) = true := by
    rcases hmissing with h | h
    · simp [hfalsy _ h]
    · simp [hfalsy _ h]
  constructor
  · intro hbody
    simp [translate, translateAttempt, catchBlock, hbody, hguard]
  · cases hbody : body.isNullish
    · simp [translate, translateAttempt, catchBlock, hbody, hguard]
    · simp [translate, translateAttempt, catchBlock, hbody]

/-- Witness of C1 amended: a body with a target language and no text. -/
theorem translate_missing_field_rejected_witness :
    ((JSVal.obj [("targetLanguage", .str "es")]).get "text").isNullish = true ∧
      (translate (replyingEnv "Hola") (.obj [("targetLanguage", .str "es")])).result =
        .ok { status := 400, body := .obj [("error", .str "Missing text or targetLanguage")] } ∧
      (translate (replyingEnv "Hola") (.obj [("targetLanguage", .str "es")])).calls = [] :=
  ⟨rfl,
    (translate_missing_field_rejected (replyingEnv "Hola") (.obj [("targetLanguage", .str "es")])
      (Or.inl rfl)).1 rfl,
    (translate_missing_field_rejected (replyingEnv "Hola") (.obj [("targetLanguage", .str "es")])
      (Or.inl rfl)).2⟩

/-- C2, refuted as stated: a summarize request without a parsed body
(`req.body` is `undefined`) has no `messages`, and is answered with
status 500 `Summarization failed`, not with status 400. -/
theorem summarize_missing_body_gives_500 :
    (JSVal.undefined.get "messages").isArray = false ∧
      (summarize (replyingEnv exampleSummaryText) .undefined).result =
        .ok { status := 500
              body := .obj [("error", .str "Summarization failed"),
                ("details",
                  .str "Cannot destructure property \x27messages\x27 of \x27req.body\x27 as it is undefined.")] } ∧
      (summarize (replyingEnv exampleSummaryText) .undefined).result ≠
        .ok { status := 400, body := .obj [("error", .str "Invalid messages format")] } := by
  have hok : (summarize (replyingEnv exampleSummaryText) .undefined).result =
      .ok { status := 500
            body := .obj [("error", .str "Summarization failed"),
              ("details",
                .str "Cannot destructure property \x27messages\x27 of \x27req.body\x27 as it is undefined.")] } := rfl
  refine ⟨rfl, hok, ?_⟩
  intro h
  rw [hok] at h
  simp at h

/-- C2, amended: a summarize request whose `messages` is absent (it then
reads as `undefined`) or is not an array makes no call to the upstream
provider; and when the request has a parsed body (`req.body` is neither
`undefined` nor `null`) it is answered with status 400 and an `error`
message. -/
theorem summarize_invalid_messages_rejected (env : Env) (body : JSVal)
    (hinvalid : (body.get "messages").isArray = false) :
    (body.isNullish = false →
        (summarize env body).result =
          .ok { status := 400, body := .obj [("error", .str "Invalid messages format")] }) ∧
      (summarize env body).calls = [] := by
  constructor
  · intro hbody
    simp [summarize, summarizeAttempt, catchBlock, hbody, hinvalid]
  · cases hbody : body.isNullish
    · simp [summarize, summarizeAttempt, catchBlock, hbody, hinvalid]
    · simp [summarize, summarizeAttempt, catchBlock, hbody]

/-- Witness of C2 amended: `messages` is a string. -/
theorem summarize_invalid_messages_rejected_witness :
    ((JSVal.obj [("messages", .str "hello")]).get "messages").isArray = false ∧
      (summarize (replyingEnv exampleSummaryText) (.obj [("messages", .str "hello")])).result =
        .ok { status := 400, body := .obj [("error", .str "Invalid messages format")] } ∧
      (summarize (replyingEnv exampleSummaryText) (.obj [("messages", .str "hello")])).calls = [] :=
  ⟨rfl,
    (summarize_invalid_messages_rejected (replyingEnv exampleSummaryText)
      (.obj [("messages", .str "hello")]) rfl).1 rfl,
    (summarize_invalid_messages_rejected (replyingEnv exampleSummaryText)
      (.obj [("messages", .str "hello")]) rfl).2⟩

/-- C3: a transcribe request without an audio attachment (`req.file`
absent) is answered with status 400 and an `error` message, no call is
made to the upstream provider, and the storage is left as it was. -/
theorem transcribe_missing_file_rejected (env : Env) (fs : Storage) :
    (transcribe env fs none).1.result =
        .ok { status := 400, body := .obj [("error", .str "No audio file provided")] } ∧
      (transcribe env fs none).1.calls = [] ∧
      (transcribe env fs none).2 = fs := by
  simp [transcribe, transcribeAttempt, catchBlock]

/-! ## Provider failures (C4) -/

/-- C4: on each of the three routes, when a call the handler makes to the
upstream provider throws an error, the handler answers with status 500
and a body with the `error` text of the route and `details` equal to the
message of the error. -/
theorem upstream_error_gives_500 (env : Env) (fs : Storage) (req : Request)
    (call : UpstreamCall) (e : JSError)
    (hcall : call ∈ (handle env fs req).1.calls)
    (hthrown : env.thrown call = some e) :
    (handle env fs req).1.result =
      .ok { status := 500
            body := .obj [("error", .str req.failureText), ("details", .str e.message)] } := by
  cases req with
  | translate body =>
      revert hcall
      simp only [handle, translate, translateAttempt, Request.failureText]
      repeat' split
      all_goals
        simp only [catchBlock]
        intro hc
        first
          | (simp at hc; subst hc; simp_all [Env.thrown])
          | simp at hc
  | transcribe file =>
      revert hcall
      simp only [handle, transcribe, transcribeAttempt, Request.failureText]
      repeat' split
      all_goals
        simp only [catchBlock]
        intro hc
        first
          | (simp at hc; subst hc; simp_all [Env.thrown])
          | simp at hc
  | summarize body =>
      revert hcall
      simp only [handle, summarize, summarizeAttempt, Request.failureText]
      repeat' split
      all_goals
        simp only [catchBlock]
        intro hc
        first
          | (simp at hc; subst hc; simp_all [Env.thrown])
          | simp at hc

/-- Witness of C4: the provider throws `Connection error.` on each of the
three routes. -/
theorem upstream_error_gives_500_witness :
    (handle (failingEnv connectionError) exampleStorage
        (.translate (.obj [("text", .str "Hello"), ("targetLanguage", .str "es")]))).1.result =
      .ok { status := 500
            body := .obj [("error", .str "Translation failed"),
              ("details", .str "Connection error.")] } ∧
    (handle (failingEnv connectionError) exampleStorage
        (.transcribe (some { path := "uploads/3f2a" }))).1.result =
      .ok { status := 500
            body := .obj [("error", .str "Transcription failed"),
              ("details", .str "Connection error.")] } ∧
    (handle (failingEnv connectionError) exampleStorage
        (.summarize (.obj [("messages", .arr [])]))).1.result =
      .ok { status := 500
            body := .obj [("error", .str "Summarization failed"),
              ("details", .str "Connection error.")] } :=
  ⟨upstream_error_gives_500 (failingEnv connectionError) exampleStorage
      (.translate (.obj [("text", .str "Hello"), ("targetLanguage", .str "es")]))
      (.chat (translateRequest
        "You are a medical translator. Translate the following text from auto to es accurately maintaining medical terminology. Translate only the text, return nothing else."
        (.str "Hello")))
      connectionError (List.Mem.head _) rfl,
    upstream_error_gives_500 (failingEnv connectionError) exampleStorage
      (.transcribe (some { path := "uploads/3f2a" }))
      (.transcription
        { file := { path := "uploads/3f2a", contents := some [82, 73, 70, 70] }
          model := "whisper-1" })
      connectionError (List.Mem.head _) rfl,
    upstream_error_gives_500 (failingEnv connectionError) exampleStorage
      (.summarize (.obj [("messages", .arr [])])) (.chat (summarizeRequest "")) connectionError
      (List.Mem.head _) rfl⟩

/-! ## Translation (C5) -/

/-- C5: for a translate request whose `text` is a non-empty string `t` and
whose `targetLanguage` is a non-empty string (the optional
`sourceLanguage` being any value that converts to text), when the
upstream call returns a completion whose first choice has content `c`,
the response is a success with body exactly
`translatedText: trim(c), originalText: t`, where `trim(c)` is `c`
without its leading and trailing whitespace: `c` is `trim(c)` with only
whitespace before it and after it, and `trim(c)` neither starts nor ends
with whitespace.  `originalText` is `t` untrimmed. -/
theorem translate_success (env : Env) (body : JSVal) (t l c : String)
    (completion : ChatCompletion)
    (hbody : body.isNullish = false)
    (htext : body.get "text" = .str t) (ht : t ≠ "")
    (htarget : body.get "targetLanguage" = .str l) (hl : l ≠ "")
    (hsource : (toStr? (body.get "sourceLanguage")).isSome = true)
    (hupstream : ∀ request, UpstreamCall.chat request ∈ (translate env body).calls →
      env.chat request = .ok completion)
    (hfirst : firstContent completion = .ok (some c)) :
    ∃ trimmed : String,
      trimmed = jsTrim c ∧
      (translate env body).result =
        .ok { status := 200
              body := .obj [("translatedText", .str trimmed), ("originalText", .str t)] } ∧
      (∃ before after : List Char,
        c.data = before ++ trimmed.data ++ after ∧
        (∀ ch ∈ before, isJSWhiteSpace ch = true) ∧
        (∀ ch ∈ after, isJSWhiteSpace ch = true)) ∧
      (∀ ch, trimmed.data.head? = some ch → isJSWhiteSpace ch = false) ∧
      (∀ ch, trimmed.data.getLast? = some ch → isJSWhiteSpace ch = false) := by
  obtain ⟨prompt, hprompt⟩ := translate_systemPrompt_ok (body.get "sourceLanguage") l hsource
  refine ⟨jsTrim c, rfl, ?_, jsTrim_strips_only c, jsTrim_head_not_white c,
    jsTrim_last_not_white c⟩
  have htruthy : (JSVal.str t).truthy = true ∧ (JSVal.str l).truthy = true := by
    simp [JSVal.truthy, ht, hl]
  have hchat : env.chat (translateRequest prompt (.str t)) = .ok completion := by
    apply hupstream
    simp only [translate, translateAttempt, hbody, htext, htarget, hprompt, htruthy]
    repeat' split
    all_goals simp_all [catchBlock]
  simp [translate, translateAttempt, catchBlock, hbody, htext, htarget, hprompt, htruthy,
    hchat, translatedContent, hfirst]

/-- Witness of C5: text `Hello`, target language `es`, upstream `Hola`
gives `translatedText: Hola, originalText: Hello`; so does the upstream
content `Hola` with two spaces before it and a space and a newline after
it. -/
theorem translate_success_witness :
    (translate (replyingEnv "Hola")
        (.obj [("text", .str "Hello"), ("targetLanguage", .str "es")])).result =
      .ok { status := 200
            body := .obj [("translatedText", .str "Hola"), ("originalText", .str "Hello")] } ∧
    (translate (replyingEnv "  Hola \n")
        (.obj [("text", .str "Hello"), ("targetLanguage", .str "es")])).result =
      .ok { status := 200
            body := .obj [("translatedText", .str "Hola"), ("originalText", .str "Hello")] } ∧
    ∃ trimmed : String,
      trimmed = jsTrim "  Hola \n" ∧
      (translate (replyingEnv "  Hola \n")
          (.obj [("text", .str "Hello"), ("targetLanguage", .str "es")])).result =
        .ok { status := 200
              body := .obj [("translatedText", .str trimmed), ("originalText", .str "Hello")] } ∧
      (∃ before after : List Char,
        "  Hola \n".data = before ++ trimmed.data ++ after ∧
        (∀ ch ∈ before, isJSWhiteSpace ch = true) ∧
        (∀ ch ∈ after, isJSWhiteSpace ch = true)) ∧
      (∀ ch, trimmed.data.head? = some ch → isJSWhiteSpace ch = false) ∧
      (∀ ch, trimmed.data.getLast? = some ch → isJSWhiteSpace ch = false) :=
  ⟨rfl, rfl,
    translate_success (replyingEnv "  Hola \n")
      (.obj [("text", .str "Hello"), ("targetLanguage", .str "es")]) "Hello" "es" "  Hola \n"
      { choices := [{ content := some "  Hola \n" }] } rfl rfl (by decide) rfl (by decide) rfl
      (fun _ _ => rfl) rfl⟩

/-! ## Summarization (C6, C7, C9, C10) -/

/-- C6: for an array of turns `m1 .. mn` (elements whose `senderRole` and
`originalText` are strings), the summarize handler makes exactly one
upstream call, whose user turn is the entries `role: text` of the turns,
in input order, joined by single newlines: nothing for the empty array,
no newline before the first or after the last entry.  The same holds for
every rearrangement of the array, whose transcript is the entries
rearranged the same way. -/
theorem summarize_transcript (env : Env) (body : JSVal) (items : List JSVal)
    (msgs : List ConversationMessage)
    (hbody : body.isNullish = false)
    (hmessages : body.get "messages" = .arr items)
    (hturns : items.map JSVal.asMessage? = msgs.map some) :
    (∃ request, (summarize env body).calls = [.chat request] ∧
        request.messages =
          [{ role := "system", content := .str summarize.systemPrompt },
           { role := "user"
             content := .str (String.intercalate "\n" (msgs.map ConversationMessage.entry)) }]) ∧
      (items = [] → ∃ request, (summarize env body).calls = [.chat request] ∧
        request.messages =
          [{ role := "system", content := .str summarize.systemPrompt },
           { role := "user", content := .str "" }]) ∧
      (∀ (positions : List Nat) (body2 : JSVal), body2.isNullish = false →
        body2.get "messages" = .arr (rearrange positions items) →
        ∃ request, (summarize env body2).calls = [.chat request] ∧
          request.messages =
            [{ role := "system", content := .str summarize.systemPrompt },
             { role := "user"
               content := .str (String.intercalate "\n"
                 ((rearrange positions msgs).map ConversationMessage.entry)) }]) := by
  refine ⟨⟨_, summarize_calls_of_asMessage env body items msgs hbody hmessages hturns, rfl⟩,
    ?_, ?_⟩
  · intro hnil
    subst hnil
    have hmsgs : msgs = [] := by
      cases msgs with
      | nil => rfl
      | cons m ms => simp at hturns
    subst hmsgs
    exact ⟨_, summarize_calls_of_asMessage env body [] [] hbody hmessages rfl, rfl⟩
  · intro positions body2 hbody2 hmessages2
    exact ⟨_, summarize_calls_of_asMessage env body2 _ _ hbody2 hmessages2
      (rearrange_asMessage positions items msgs hturns), rfl⟩

/-- Witness of C6: the turns doctor `How are you?` and patient
`I have a fever`. -/
theorem summarize_transcript_witness :
    ∃ request,
      (summarize (replyingEnv exampleSummaryText)
        (.obj [("messages", .arr
          [.obj [("senderRole", .str "doctor"), ("originalText", .str "How are you?")],
           .obj [("senderRole", .str "patient"), ("originalText", .str "I have a fever")]])])).calls =
        [.chat request] ∧
      request.messages =
        [{ role := "system", content := .str summarize.systemPrompt },
         { role := "user", content := .str "doctor: How are you?\npatient: I have a fever" }] :=
  (summarize_transcript (replyingEnv exampleSummaryText)
    (.obj [("messages", .arr
      [.obj [("senderRole", .str "doctor"), ("originalText", .str "How are you?")],
       .obj [("senderRole", .str "patient"), ("originalText", .str "I have a fever")]])])
    [.obj [("senderRole", .str "doctor"), ("originalText", .str "How are you?")],
     .obj [("senderRole", .str "patient"), ("originalText", .str "I have a fever")]]
    [{ senderRole := "doctor", originalText := "How are you?" },
     { senderRole := "patient", originalText := "I have a fever" }]
    rfl rfl rfl).1

/-- C7: for a summarize request with an array of turns, when the upstream
call returns a completion whose first choice has content `j` and `j` is
valid JSON with parsed value `v`, the response is a success whose body is
exactly `v`; every other such request for which the upstream returns
content `j` gets the same response. -/
theorem summarize_forwards_parsed_json (env : Env) (body : JSVal) (items : List JSVal)
    (msgs : List ConversationMessage) (completion : ChatCompletion) (j : String) (v : JSVal)
    (hbody : body.isNullish = false)
    (hmessages : body.get "messages" = .arr items)
    (hturns : items.map JSVal.asMessage? = msgs.map some)
    (hupstream : ∀ request, UpstreamCall.chat request ∈ (summarize env body).calls →
      env.chat request = .ok completion)
    (hfirst : firstContent completion = .ok (some j))
    (hparse : env.jsonParse j = .ok v) :
    (summarize env body).result = .ok { status := 200, body := v } ∧
      (∀ (body2 : JSVal) (items2 : List JSVal) (msgs2 : List ConversationMessage)
          (completion2 : ChatCompletion),
        body2.isNullish = false → body2.get "messages" = .arr items2 →
        items2.map JSVal.asMessage? = msgs2.map some →
        (∀ request, UpstreamCall.chat request ∈ (summarize env body2).calls →
          env.chat request = .ok completion2) →
        firstContent completion2 = .ok (some j) →
        (summarize env body2).result = (summarize env body).result) := by
  have hresult : ∀ (b : JSVal) (is : List JSVal) (ms : List ConversationMessage)
      (cp : ChatCompletion), b.isNullish = false → b.get "messages" = .arr is →
      is.map JSVal.asMessage? = ms.map some →
      (∀ request, UpstreamCall.chat request ∈ (summarize env b).calls →
        env.chat request = .ok cp) →
      firstContent cp = .ok (some j) →
      (summarize env b).result = .ok { status := 200, body := v } := by
    intro b is ms cp hb hm ht hu hf
    rw [summarize_result_of_chat env b is ms cp hb hm ht hu]
    simp [parsedContent, hf, hparse, catchBlock]
  refine ⟨hresult body items msgs completion hbody hmessages hturns hupstream hfirst, ?_⟩
  intro body2 items2 msgs2 completion2 hb hm ht hu hf
  rw [hresult body2 items2 msgs2 completion2 hb hm ht hu hf,
    hresult body items msgs completion hbody hmessages hturns hupstream hfirst]

/-- Witness of C7: the turns doctor `How are you?` and patient
`I have a fever`, with a five-field reply. -/
theorem summarize_forwards_parsed_json_witness :
    (summarize (replyingEnv exampleSummaryText)
        (.obj [("messages", .arr
          [.obj [("senderRole", .str "doctor"), ("originalText", .str "How are you?")],
           .obj [("senderRole", .str "patient"), ("originalText", .str "I have a fever")]])])).result =
      .ok { status := 200, body := exampleSummary } :=
  (summarize_forwards_parsed_json (replyingEnv exampleSummaryText)
    (.obj [("messages", .arr
      [.obj [("senderRole", .str "doctor"), ("originalText", .str "How are you?")],
       .obj [("senderRole", .str "patient"), ("originalText", .str "I have a fever")]])])
    [.obj [("senderRole", .str "doctor"), ("originalText", .str "How are you?")],
     .obj [("senderRole", .str "patient"), ("originalText", .str "I have a fever")]]
    [{ senderRole := "doctor", originalText := "How are you?" },
     { senderRole := "patient", originalText := "I have a fever" }]
    { choices := [{ content := some exampleSummaryText }] } exampleSummaryText exampleSummary
    rfl rfl rfl (fun _ _ => rfl) rfl rfl).1

/-- C9, refuted as stated: on the request with no turns and the upstream
content `not json`, which `JSON.parse` rejects, the parse exception does
not leave the handler; the response is the 500 reply whose `details` is
the message of the parse error. -/
theorem summarize_parse_error_not_escaping :
    (replyingEnv "not json").jsonParse "not json" =
        .error
          { name := "SyntaxError"
            message := "Unexpected token \x27o\x27, \"not json\" is not valid JSON" } ∧
      (∀ e : JSError,
        (summarize (replyingEnv "not json") (.obj [("messages", .arr [])])).result ≠ .error e) ∧
      (summarize (replyingEnv "not json") (.obj [("messages", .arr [])])).result =
        .ok { status := 500
              body := .obj [("error", .str "Summarization failed"),
                ("details",
                  .str "Unexpected token \x27o\x27, \"not json\" is not valid JSON")] } := by
  have hok : (summarize (replyingEnv "not json") (.obj [("messages", .arr [])])).result =
      .ok { status := 500
            body := .obj [("error", .str "Summarization failed"),
              ("details",
                .str "Unexpected token \x27o\x27, \"not json\" is not valid JSON")] } := rfl
  refine ⟨rfl, ?_, hok⟩
  intro e h
  rw [hok] at h
  exact Except.noConfusion h

/-- C9, amended: for a summarize request with an array of turns, when the
upstream call returns content `j` that `JSON.parse` rejects with error
`e`, the `catch` block of the handler takes the exception: it is logged
and the response is status 500 with `error` `Summarization failed` and
`details` the message of `e`. -/
theorem summarize_parse_error_gives_500 (env : Env) (body : JSVal) (items : List JSVal)
    (msgs : List ConversationMessage) (completion : ChatCompletion) (j : String) (e : JSError)
    (hbody : body.isNullish = false)
    (hmessages : body.get "messages" = .arr items)
    (hturns : items.map JSVal.asMessage? = msgs.map some)
    (hupstream : ∀ request, UpstreamCall.chat request ∈ (summarize env body).calls →
      env.chat request = .ok completion)
    (hfirst : firstContent completion = .ok (some j))
    (hparse : env.jsonParse j = .error e) :
    (summarize env body).result =
        .ok { status := 500
              body := .obj [("error", .str "Summarization failed"), ("details", .str e.message)] } ∧
      (summarize env body).log = [("Summarization Error:", e)] := by
  rw [summarize_result_of_chat env body items msgs completion hbody hmessages hturns hupstream]
  simp [parsedContent, hfirst, hparse, catchBlock]

/-- Witness of C9 amended: one turn, upstream content `not json`. -/
theorem summarize_parse_error_gives_500_witness :
    (summarize (replyingEnv "not json")
        (.obj [("messages", .arr
          [.obj [("senderRole", .str "doctor"), ("originalText", .str "How are you?")]])])).result =
        .ok { status := 500
              body := .obj [("error", .str "Summarization failed"),
                ("details", .str "Unexpected token \x27o\x27, \"not json\" is not valid JSON")] } ∧
      (summarize (replyingEnv "not json")
        (.obj [("messages", .arr
          [.obj [("senderRole", .str "doctor"), ("originalText", .str "How are you?")]])])).log =
        [("Summarization Error:",
          { name := "SyntaxError"
            message := "Unexpected token \x27o\x27, \"not json\" is not valid JSON" })] :=
  summarize_parse_error_gives_500 (replyingEnv "not json")
    (.obj [("messages", .arr
      [.obj [("senderRole", .str "doctor"), ("originalText", .str "How are you?")]])])
    [.obj [("senderRole", .str "doctor"), ("originalText", .str "How are you?")]]
    [{ senderRole := "doctor", originalText := "How are you?" }]
    { choices := [{ content := some "not json" }] } "not json"
    { name := "SyntaxError"
      message := "Unexpected token \x27o\x27, \"not json\" is not valid JSON" }
    rfl rfl rfl (fun _ _ => rfl) rfl rfl

/-- C10: on a summarize request with a body, the 400 reply is given
exactly when `messages` is falsy or not an array; and when `messages` is
an array with an `undefined` or `null` element, the handler answers 500
`Summarization failed` with a `details` message and makes no call to the
upstream provider. -/
theorem summarize_nullish_element_gives_500 (env : Env) (body : JSVal)
    (hbody : body.isNullish = false) :
    ((∃ response, (summarize env body).result = .ok response ∧ response.status = 400) ↔
        ((body.get "messages").truthy = false ∨ (body.get "messages").isArray = false)) ∧
      (∀ items : List JSVal, body.get "messages" = .arr items →
        (∃ m ∈ items, m.isNullish = true) →
        ∃ details : String, details ≠ "" ∧
          (summarize env body).result =
            .ok { status := 500
                  body := .obj [("error", .str "Summarization failed"),
                    ("details", .str details)] } ∧
          (summarize env body).calls = []) := by
  constructor
  · constructor
    · rintro ⟨response, hresult, hstatus⟩
      by_contra hvalid
      simp only [not_or, Bool.not_eq_false] at hvalid
      have hguard : (!(body.get "messages").truthy || !(body.get "messages").isArray) = false := by
        simp [hvalid.1, hvalid.2]
      revert hresult
      simp only [summarize, summarizeAttempt, hbody, hguard, Bool.false_eq_true, ↓reduceIte]
      repeat' split
      all_goals
        simp only [catchBlock]
        intro hresult
        simp only [Except.ok.injEq] at hresult
        subst hresult
        simp at hstatus
    · intro hinvalid
      have hguard : (!(body.get "messages").truthy || !(body.get "messages").isArray) = true := by
        rcases hinvalid with h | h <;> simp [h]
      exact ⟨{ status := 400, body := .obj [("error", .str "Invalid messages format")] },
        by simp [summarize, summarizeAttempt, catchBlock, hbody, hguard], rfl⟩
  · intro items hmessages hnull
    obtain ⟨e, he, hmsg⟩ := mapLines_error_of_nullish items hnull
    exact ⟨e.message, hmsg, by
      simp [summarize, summarizeAttempt, catchBlock, hbody, hmessages, JSVal.truthy,
        JSVal.isArray, conversationText, he]⟩

/-- Witness of C10: the array holding only `null`. -/
theorem summarize_nullish_element_gives_500_witness :
    ∃ details : String, details ≠ "" ∧
      (summarize (replyingEnv exampleSummaryText) (.obj [("messages", .arr [.null])])).result =
        .ok { status := 500
              body := .obj [("error", .str "Summarization failed"), ("details", .str details)] } ∧
      (summarize (replyingEnv exampleSummaryText) (.obj [("messages", .arr [.null])])).calls = [] :=
  (summarize_nullish_element_gives_500 (replyingEnv exampleSummaryText)
    (.obj [("messages", .arr [.null])]) rfl).2 [.null] rfl ⟨.null, List.Mem.head _, rfl⟩

/-! ## Transcription (C8) -/

/-- C8: for a transcribe request whose staged file exists at path `p`:
when the upstream call returns transcript `t`, the response is a success
with body exactly `text: t`, no file is left at `p`, and every other path
is as before; when the upstream call throws, the storage is unchanged, so
the file at `p` is still there with its contents. -/
theorem transcribe_removes_upload_on_success_only (env : Env) (fs : Storage) (f : MulterFile)
    (data : FileData) (hstaged : fs f.path = some data) :
    (∀ transcription : Transcription,
        env.transcribe { file := createReadStream fs f.path, model := "whisper-1" } =
          .ok transcription →
        (transcribe env fs (some f)).1.result =
            .ok { status := 200, body := .obj [("text", .str transcription.text)] } ∧
          (transcribe env fs (some f)).2 f.path = none ∧
          (∀ q, q ≠ f.path → (transcribe env fs (some f)).2 q = fs q)) ∧
      (∀ e : JSError,
        env.transcribe { file := createReadStream fs f.path, model := "whisper-1" } = .error e →
        (transcribe env fs (some f)).2 = fs ∧
          (transcribe env fs (some f)).2 f.path = some data) := by
  constructor
  · intro transcription hreturn
    have hrun : transcribe env fs (some f) =
        ({ calls := [.transcription { file := createReadStream fs f.path, model := "whisper-1" }]
           log := []
           result := .ok { status := 200, body := .obj [("text", .str transcription.text)] } },
          fun q => if q = f.path then none else fs q) := by
      simp [transcribe, transcribeAttempt, hreturn, unlinkSync, hstaged, catchBlock]
    rw [hrun]
    exact ⟨rfl, by simp, fun q hq => by simp [hq]⟩
  · intro e hthrow
    simp [transcribe, transcribeAttempt, hthrow, hstaged]

/-- Witness of C8: the staged upload of `exampleStorage`, with the
upstream returning `patient reports fever`, and with the upstream
throwing. -/
theorem transcribe_removes_upload_on_success_only_witness :
    exampleStorage "uploads/3f2a" = some [82, 73, 70, 70] ∧
      ((transcribe (replyingEnv "patient reports fever") exampleStorage
            (some { path := "uploads/3f2a" })).1.result =
          .ok { status := 200, body := .obj [("text", .str "patient reports fever")] } ∧
        (transcribe (replyingEnv "patient reports fever") exampleStorage
            (some { path := "uploads/3f2a" })).2 "uploads/3f2a" = none ∧
        (∀ q, q ≠ "uploads/3f2a" →
          (transcribe (replyingEnv "patient reports fever") exampleStorage
            (some { path := "uploads/3f2a" })).2 q = exampleStorage q)) ∧
      ((transcribe (failingEnv connectionError) exampleStorage
            (some { path := "uploads/3f2a" })).2 = exampleStorage ∧
        (transcribe (failingEnv connectionError) exampleStorage
            (some { path := "uploads/3f2a" })).2 "uploads/3f2a" = some [82, 73, 70, 70]) :=
  ⟨rfl,
    (transcribe_removes_upload_on_success_only (replyingEnv "patient reports fever")
      exampleStorage { path := "uploads/3f2a" } [82, 73, 70, 70] rfl).1
      { text := "patient reports fever" } rfl,
    (transcribe_removes_upload_on_success_only (failingEnv connectionError)
      exampleStorage { path := "uploads/3f2a" } [82, 73, 70, 70] rfl).2 connectionError rfl⟩

end NaoMedical
